import Mathlib

/-!
Verification of the attention-rollout computation in
src/examples/general/plot_7_vision_transformer.py (function build_attention_map,
lines 258-295).  Numeric arrays are embedded over ℚ; rank-k numpy tensors are
embedded as curried index functions ℕ → ... → ℚ together with explicit
dimension arguments, and numpy reshape is modelled faithfully through
row-major flattening and re-indexing with its ValueError size check.
-/

namespace AttentionRollout

/-- Failure modes of the numpy calls in build_attention_map.  A numpy reshape
whose new size differs from the array size raises ValueError; the design
document calls this failure ShapeError. -/
inductive NpError where
  | shapeError
deriving DecidableEq, Repr

/-- Inputs of the attention-rollout computation: the captured attention
weight tensor, of shape (num_layers, 1, num_heads, tokens, tokens) as built
by lines 267-272 (a batch-1 prediction per Attention layer, stacked by
np.array), together with the token count of the attention output shape
(line 264) and the number of ClassToken layers (line 263). -/
structure AttnInput where
  num_layers : ℕ
  num_heads : ℕ
  tokens : ℕ
  num_tokens : ℕ
  w : ℕ → ℕ → ℕ → ℕ → ℕ → ℚ

/-- The image argument of build_attention_map: height × width × channels. -/
structure ImageIn where
  pix : List (List (List ℚ))

/-- Line 264: grid_size = int(np.sqrt(tokens - num_tokens)).  For a
nonnegative argument, int(np.sqrt(x)) is the floor of the square root. -/
def grid_size (tokens num_tokens : ℕ) : ℕ := Nat.sqrt (tokens - num_tokens)

def grid_of (inp : AttnInput) : ℕ := grid_size inp.tokens inp.num_tokens

/-- The token dimension grid_size**2 + 1 targeted by the reshape on
line 277. -/
def tok_count (inp : AttnInput) : ℕ := grid_of inp * grid_of inp + 1

/-- Row-major flattening of the rank-5 weights array of shape
(num_layers, 1, num_heads, t0, t0): the element at flat index k. -/
def flatten5 (H t0 : ℕ) (w : ℕ → ℕ → ℕ → ℕ → ℕ → ℚ) : ℕ → ℚ := fun k =>
  w (k / (H * (t0 * t0))) (k % (H * (t0 * t0)) / (H * (t0 * t0)))
    (k % (H * (t0 * t0)) / (t0 * t0)) (k % (t0 * t0) / t0) (k % t0)

/-- Row-major re-indexing of a flat array as a rank-4 tensor of shape
(num_layers, H, t, t), as done by the reshape on line 277. -/
def reshape4 (H t : ℕ) (flat : ℕ → ℚ) : ℕ → ℕ → ℕ → ℕ → ℚ := fun l h i j =>
  flat (((l * H + h) * t + i) * t + j)

/-- Size check of the reshape on line 277: numpy reshape of the
(num_layers, 1, num_heads, tokens, tokens) array into
(num_layers, num_heads, grid_size**2+1, grid_size**2+1) raises ValueError
unless the total sizes agree. -/
def reshape_check (L H t g : ℕ) : Except NpError Unit :=
  if L * 1 * H * (t * t) = L * H * ((g * g + 1) * (g * g + 1)) then Except.ok ()
  else Except.error NpError.shapeError

/-- The value content of the line 277 reshape applied to the input tensor. -/
def reshaped_of (inp : AttnInput) : ℕ → ℕ → ℕ → ℕ → ℚ :=
  reshape4 inp.num_heads (tok_count inp) (flatten5 inp.num_heads inp.tokens inp.w)

/-- Line 280: reshaped.mean(axis=1), the mean across the head axis of a
rank-4 (layers, heads, t, t) tensor. -/
def head_mean (H : ℕ) (r : ℕ → ℕ → ℕ → ℕ → ℚ) : ℕ → ℕ → ℕ → ℚ := fun l i j =>
  (∑ h ∈ Finset.range H, r l h i j) / (H : ℚ)

def avg_of (inp : AttnInput) : ℕ → ℕ → ℕ → ℚ := head_mean inp.num_heads (reshaped_of inp)

/-- Line 284: reshaped + np.eye(reshaped.shape[1]), per layer matrix. -/
def add_eye (a : ℕ → ℕ → ℚ) : ℕ → ℕ → ℚ := fun i j => a i j + if i = j then 1 else 0

/-- Line 285 divisor: reshaped.sum(axis=(1, 2)), the sum of all entries of a
layer's t × t matrix. -/
def total_sum (t : ℕ) (a : ℕ → ℕ → ℚ) : ℚ :=
  ∑ i ∈ Finset.range t, ∑ j ∈ Finset.range t, a i j

/-- The sum of row i of a t × t matrix. -/
def row_sum (t : ℕ) (a : ℕ → ℕ → ℚ) (i : ℕ) : ℚ := ∑ j ∈ Finset.range t, a i j

/-- Line 285: division of every entry of a layer's matrix by that layer's
whole-matrix sum. -/
def norm_total (t : ℕ) (a : ℕ → ℕ → ℚ) : ℕ → ℕ → ℚ := fun i j => a i j / total_sum t a

/-- Lines 284-285 applied to layer l of the head-averaged tensor: the
per-layer relevance matrix. -/
def layer_mat (inp : AttnInput) (l : ℕ) : ℕ → ℕ → ℚ :=
  norm_total (tok_count inp) (add_eye (avg_of inp l))

/-- np.matmul of two t × t matrices. -/
def np_matmul (t : ℕ) (a b : ℕ → ℕ → ℚ) : ℕ → ℕ → ℚ := fun i j =>
  ∑ k ∈ Finset.range t, a i k * b k j

/-- State of the accumulator v of lines 288-290 after n loop iterations:
v starts as reshaped[-1] = M (L-1), and iteration n replaces v by
np.matmul(v, reshaped[-1-n]) = np.matmul v (M (L-1-n)). -/
def rollout_aux (t : ℕ) (M : ℕ → ℕ → ℕ → ℚ) (L : ℕ) : ℕ → (ℕ → ℕ → ℚ)
  | 0 => M (L - 1)
  | n + 1 => np_matmul t (rollout_aux t M L n) (M (L - 1 - (n + 1)))

/-- Lines 288-290: the composite rollout matrix, the accumulator after the
loop for n in range(1, L). -/
def rollout (t : ℕ) (M : ℕ → ℕ → ℕ → ℚ) (L : ℕ) : ℕ → ℕ → ℚ :=
  rollout_aux t M L (L - 1)

def rollout_of (inp : AttnInput) : ℕ → ℕ → ℚ :=
  rollout (tok_count inp) (layer_mat inp) inp.num_layers

/-- Line 293, slice v[0, 1:]: the first row of the composite matrix with its
first column removed, as a flat list of length t - 1. -/
def row_after_class (t : ℕ) (v : ℕ → ℕ → ℚ) : List ℚ :=
  (List.range (t - 1)).map (fun j => v 0 (1 + j))

/-- numpy reshape of a flat vector into a g × g grid; raises ValueError when
the length is not g * g. -/
def np_reshape2 (g : ℕ) (l : List ℚ) : Except NpError (List (List ℚ)) :=
  if l.length = g * g then
    Except.ok ((List.range g).map (fun i => (List.range g).map (fun j => l.getD (i * g + j) 0)))
  else Except.error NpError.shapeError

/-- Line 293: mask = v[0, 1:].reshape(grid_size, grid_size). -/
def extract_mask (g t : ℕ) (v : ℕ → ℕ → ℚ) : Except NpError (List (List ℚ)) :=
  np_reshape2 g (row_after_class t v)

/-- np.max of a flat array (maximum entry; numpy rejects an empty array, the
empty case is given the junk value 0). -/
def np_max : List ℚ → ℚ
  | [] => 0
  | [x] => x
  | x :: y :: xs => max x (np_max (y :: xs))

/-- Line 294, mask / mask.max(): every entry divided by the maximum entry of
the mask, with no guard against a zero maximum. -/
def np_div_max (m : List (List ℚ)) : List (List ℚ) :=
  m.map (fun row => row.map (fun x => x / np_max m.flatten))

/-- Clamp an integer pixel coordinate into [0, n-1] (border replication of
cv2.resize sampling). -/
def clamp_idx (n : ℕ) (r : ℤ) : ℕ := Int.toNat (max 0 (min ((n : ℤ) - 1) r))

def grid_get (m : List (List ℚ)) (r c : ℕ) : ℚ := (m.getD r []).getD c 0

/-- One bilinear sample of a grid at source coordinates (sy, sx), the
INTER_LINEAR interpolation used by cv2.resize. -/
def bilinear_sample (m : List (List ℚ)) (sy sx : ℚ) : ℚ :=
  let y0 : ℤ := Int.floor sy
  let x0 : ℤ := Int.floor sx
  let fy : ℚ := sy - (y0 : ℚ)
  let fx : ℚ := sx - (x0 : ℚ)
  let v00 := grid_get m (clamp_idx m.length y0) (clamp_idx (m.headD []).length x0)
  let v01 := grid_get m (clamp_idx m.length y0) (clamp_idx (m.headD []).length (x0 + 1))
  let v10 := grid_get m (clamp_idx m.length (y0 + 1)) (clamp_idx (m.headD []).length x0)
  let v11 := grid_get m (clamp_idx m.length (y0 + 1)) (clamp_idx (m.headD []).length (x0 + 1))
  (1 - fy) * ((1 - fx) * v00 + fx * v01) + fy * ((1 - fx) * v10 + fx * v11)

/-- Line 294, cv2.resize(m, (w, h)): following the cv2 convention the dsize
pair is (width, height), so the result has h rows of w columns, sampled
bilinearly from the source grid. -/
def cv2_resize (m : List (List ℚ)) (w h : ℕ) : List (List ℚ) :=
  (List.range h).map (fun i : ℕ => (List.range w).map (fun j : ℕ =>
    bilinear_sample m (((i : ℚ) + 1/2) * (m.length : ℚ) / (h : ℚ) - 1/2)
      (((j : ℚ) + 1/2) * ((m.headD []).length : ℚ) / (w : ℚ) - 1/2)))

/-- C-style truncation toward zero used by astype("uint8") on line 295. -/
def trunc_int (q : ℚ) : ℤ := if 0 ≤ q then Int.floor q else Int.ceil q

/-- astype("uint8") of one float value: truncate and wrap modulo 2^8. -/
def uint8_cast (q : ℚ) : ℕ := (trunc_int q % 256).toNat

/-- Line 295: (mask * image).astype("uint8"), where the (h, w, 1) mask is
broadcast against the (h, w, c) image. -/
def overlay (mask : List (List ℚ)) (pix : List (List (List ℚ))) : List (List (List ℕ)) :=
  List.zipWith (fun mrow prow =>
    List.zipWith (fun mvl pvec => pvec.map (fun ch => uint8_cast (mvl * ch))) mrow prow)
    mask pix

/-- numpy shape[0] of the image. -/
def image_height (img : ImageIn) : ℕ := img.pix.length

/-- numpy shape[1] of the image. -/
def image_width (img : ImageIn) : ℕ := (img.pix.headD []).length

/-- The whole of build_attention_map, lines 258-295: with the attention
weights already captured, the function reshapes them (line 277, which can
raise), averages heads, adds the identity and renormalizes, composes the
rollout, extracts the mask (line 293 reshape), normalizes it by its maximum,
resizes it to the image's width and height, and overlays it on the image. -/
def build_attention_map (inp : AttnInput) (img : ImageIn) :
    Except NpError (List (List (List ℕ))) :=
  (reshape_check inp.num_layers inp.num_heads inp.tokens (grid_of inp)).bind (fun _ =>
  (extract_mask (grid_of inp) (tok_count inp) (rollout_of inp)).bind (fun mask =>
  Except.ok (overlay (cv2_resize (np_div_max mask) (image_width img) (image_height img))
    img.pix)))

/-- A concrete input: one layer, one head, two tokens (grid 1), one class
token, all attention weights zero. -/
def zero_attn : AttnInput := ⟨1, 1, 2, 1, fun _ _ _ _ _ => 0⟩

/-- A concrete input whose token count minus class-token count is 3, not a
perfect square. -/
def nonsq_attn : AttnInput := ⟨1, 1, 4, 1, fun _ _ _ _ _ => 0⟩

/-- A concrete 1 × 1 × 1 image. -/
def img1 : ImageIn := ⟨[[[1]]]⟩

instance {ε α : Type} [DecidableEq ε] [DecidableEq α] : DecidableEq (Except ε α)
  | Except.error e, Except.error f => decidable_of_iff (e = f) (by simp)
  | Except.error _, Except.ok _ => Decidable.isFalse (by simp)
  | Except.ok _, Except.error _ => Decidable.isFalse (by simp)
  | Except.ok a, Except.ok b => decidable_of_iff (a = b) (by simp)

/-- If i < n and j < n then the row-major position i * n + j is inside an
n × n block. -/
theorem mul_add_lt {i j n : ℕ} (hi : i < n) (hj : j < n) : i * n + j < n * n := by
  have h1 : i + 1 ≤ n := hi
  calc i * n + j < i * n + n := by omega
  _ = (i + 1) * n := by ring
  _ ≤ n * n := Nat.mul_le_mul_right n h1

/-- The reshape on line 277 is index-preserving: flattening the rank-5
(L, 1, H, t, t) tensor in row-major order and re-reading it as a rank-4
(L, H, t, t) tensor recovers the original entries with the batch axis
squeezed out. -/
theorem reshape4_flatten5 (H t : ℕ) (w : ℕ → ℕ → ℕ → ℕ → ℕ → ℚ)
    (l h i j : ℕ) (hh : h < H) (hi : i < t) (hj : j < t) :
    reshape4 H t (flatten5 H t w) l h i j = w l 0 h i j := by
  have ht : 0 < t := Nat.lt_of_le_of_lt (Nat.zero_le j) hj
  have hH : 0 < H := Nat.lt_of_le_of_lt (Nat.zero_le h) hh
  have hij : i * t + j < t * t := mul_add_lt hi hj
  have hr : h * (t * t) + (i * t + j) < H * (t * t) := by
    have h1 : h + 1 ≤ H := hh
    calc h * (t * t) + (i * t + j) < h * (t * t) + t * t := by omega
    _ = (h + 1) * (t * t) := by ring
    _ ≤ H * (t * t) := Nat.mul_le_mul_right (t * t) h1
  have hpos : 0 < H * (t * t) := by positivity
  have hpos2 : 0 < t * t := by positivity
  have e1 : ((l * H + h) * t + i) * t + j
      = (H * (t * t)) * l + (h * (t * t) + (i * t + j)) := by ring
  have e2 : ((l * H + h) * t + i) * t + j = (t * t) * (l * H + h) + (i * t + j) := by ring
  have e3 : ((l * H + h) * t + i) * t + j = t * ((l * H + h) * t + i) + j := by ring
  have d1 : (((l * H + h) * t + i) * t + j) / (H * (t * t)) = l := by
    rw [e1, Nat.mul_add_div hpos, Nat.div_eq_of_lt hr, Nat.add_zero]
  have m1 : (((l * H + h) * t + i) * t + j) % (H * (t * t))
      = h * (t * t) + (i * t + j) := by
    rw [e1, Nat.mul_add_mod, Nat.mod_eq_of_lt hr]
  have d2 : (h * (t * t) + (i * t + j)) / (H * (t * t)) = 0 := Nat.div_eq_of_lt hr
  have d3 : (h * (t * t) + (i * t + j)) / (t * t) = h := by
    have e4 : h * (t * t) + (i * t + j) = (t * t) * h + (i * t + j) := by ring
    rw [e4, Nat.mul_add_div hpos2, Nat.div_eq_of_lt hij, Nat.add_zero]
  have m2 : (((l * H + h) * t + i) * t + j) % (t * t) = i * t + j := by
    rw [e2, Nat.mul_add_mod, Nat.mod_eq_of_lt hij]
  have d4 : (i * t + j) / t = i := by
    have e5 : i * t + j = t * i + j := by ring
    rw [e5, Nat.mul_add_div ht, Nat.div_eq_of_lt hj, Nat.add_zero]
  have m3 : (((l * H + h) * t + i) * t + j) % t = j := by
    rw [e3, Nat.mul_add_mod, Nat.mod_eq_of_lt hj]
  simp only [reshape4, flatten5]
  rw [d1, m1, d2, d3, m2, d4, m3]

/-- Claim C7 (confirmed): for every layer of the rank-4 attention weight
tensor, the head-averaging step (line 280, after the line 277 reshape)
produces a tokens × tokens matrix whose (i, j) entry is the arithmetic mean
over the head dimension of that layer's attention weights at (i, j). -/
theorem c7_head_mean (inp : AttnInput) (l i j : ℕ)
    (ht : inp.tokens = tok_count inp) (hi : i < inp.tokens) (hj : j < inp.tokens) :
    avg_of inp l i j
      = (∑ h ∈ Finset.range inp.num_heads, inp.w l 0 h i j) / (inp.num_heads : ℚ) := by
  unfold avg_of head_mean
  congr 1
  apply Finset.sum_congr rfl
  intro h hh
  rw [Finset.mem_range] at hh
  unfold reshaped_of
  rw [← ht]
  exact reshape4_flatten5 _ _ _ _ _ _ _ hh hi hj

/-- Witness for C7 at a concrete input. -/
theorem c7_head_mean_witness :
    zero_attn.tokens = tok_count zero_attn ∧ 0 < zero_attn.tokens ∧
    avg_of zero_attn 0 0 0
      = (∑ h ∈ Finset.range zero_attn.num_heads, zero_attn.w 0 0 h 0 0)
        / (zero_attn.num_heads : ℚ) :=
  ⟨by decide, by decide, c7_head_mean zero_attn 0 0 0 (by decide) (by decide) (by decide)⟩

/-- Adding the identity matrix (line 284) adds exactly 1 to the sum of each
in-range row. -/
theorem row_sum_add_eye (t : ℕ) (a : ℕ → ℕ → ℚ) (i : ℕ) (hi : i < t) :
    row_sum t (add_eye a) i = row_sum t a i + 1 := by
  unfold row_sum add_eye
  rw [Finset.sum_add_distrib]
  congr 1
  rw [Finset.sum_ite_eq (Finset.range t) i (fun _ => (1 : ℚ))]
  simp [Finset.mem_range.mpr hi]

/-- Adding the identity matrix (line 284) adds exactly t to the whole-matrix
sum. -/
theorem total_sum_add_eye (t : ℕ) (a : ℕ → ℕ → ℚ) :
    total_sum t (add_eye a) = total_sum t a + t := by
  unfold total_sum
  have e : ∀ i2 ∈ Finset.range t,
      (∑ j ∈ Finset.range t, add_eye a i2 j) = (∑ j ∈ Finset.range t, a i2 j) + 1 := by
    intro i2 hi2
    exact row_sum_add_eye t a i2 (Finset.mem_range.mp hi2)
  rw [Finset.sum_congr rfl e, Finset.sum_add_distrib]
  simp [Finset.sum_const, Finset.card_range, mul_one]

/-- Claim C1 (amended): the renormalization on line 285 divides by the
whole-matrix sum, not by each row sum, so after the residual add each row i
of the relevance matrix sums to (1 + the head-averaged row sum) divided by
the whole post-identity matrix sum; rows do not individually sum to 1. -/
theorem c1_amended_row_sum (t : ℕ) (a : ℕ → ℕ → ℚ) (i : ℕ) (hi : i < t) :
    row_sum t (norm_total t (add_eye a)) i
      = (row_sum t a i + 1) / (total_sum t a + t) := by
  have key : row_sum t (norm_total t (add_eye a)) i
      = row_sum t (add_eye a) i / total_sum t (add_eye a) := by
    unfold row_sum norm_total
    rw [Finset.sum_div]
  rw [key, row_sum_add_eye t a i hi, total_sum_add_eye t a]

/-- Claim C1 counterexample: at the all-zero attention input (1 layer,
1 head, 2 tokens, 1 class token) the per-layer relevance matrix built by
lines 284-285 has a row summing to 1/2, not 1, so relevance matrices are
not row-stochastic. -/
theorem c1_counterexample : row_sum 2 (layer_mat zero_attn 0) 0 ≠ 1 := by
  norm_num [row_sum, layer_mat, norm_total, total_sum, add_eye, avg_of, head_mean,
    reshaped_of, reshape4, flatten5, tok_count, grid_of, grid_size, zero_attn,
    Nat.sqrt_one, Finset.sum_range_succ]
  decide

/-- Witness for the amended C1 at a concrete input. -/
theorem c1_amended_row_sum_witness :
    0 < 2 ∧ row_sum 2 (norm_total 2 (add_eye (fun _ _ => (0 : ℚ)))) 0
      = (row_sum 2 (fun _ _ => (0 : ℚ)) 0 + 1) / (total_sum 2 (fun _ _ => (0 : ℚ)) + (2 : ℕ)) :=
  ⟨by decide, c1_amended_row_sum 2 (fun _ _ => 0) 0 (by decide)⟩

/-- Dividing a whole matrix by a nonzero total makes the total 1. -/
theorem total_sum_norm_total (t : ℕ) (a : ℕ → ℕ → ℚ) (ha : total_sum t a ≠ 0) :
    total_sum t (norm_total t a) = 1 := by
  have e1 : total_sum t (norm_total t a) = total_sum t a / total_sum t a := by
    unfold total_sum norm_total
    rw [Finset.sum_div]
    exact Finset.sum_congr rfl (fun i2 _ => (Finset.sum_div _ _ _).symm)
  rw [e1, div_self ha]

/-- Claim C10 (confirmed): after the identity-add-and-normalize step
(lines 284-285) every per-layer relevance matrix has the sum of all of its
entries equal to 1, whenever the post-identity sum is nonzero. -/
theorem c10_total_sum_one (inp : AttnInput) (l : ℕ)
    (h : total_sum (tok_count inp) (add_eye (avg_of inp l)) ≠ 0) :
    total_sum (tok_count inp) (layer_mat inp l) = 1 := by
  unfold layer_mat
  exact total_sum_norm_total _ _ h

/-- The post-identity whole-matrix sum is nonzero at the concrete all-zero
attention input. -/
theorem zero_attn_total_ne :
    total_sum (tok_count zero_attn) (add_eye (avg_of zero_attn 0)) ≠ 0 := by
  norm_num [layer_mat, norm_total, total_sum, add_eye, avg_of, head_mean,
    reshaped_of, reshape4, flatten5, tok_count, grid_of, grid_size, zero_attn,
    Nat.sqrt_one, Finset.sum_range_succ]
  decide

/-- Witness for C10 at a concrete input. -/
theorem c10_total_sum_one_witness :
    total_sum (tok_count zero_attn) (add_eye (avg_of zero_attn 0)) ≠ 0 ∧
    total_sum (tok_count zero_attn) (layer_mat zero_attn 0) = 1 :=
  ⟨zero_attn_total_ne, c10_total_sum_one zero_attn 0 zero_attn_total_ne⟩

/-- View of an index-function matrix as a Mathlib t × t matrix. -/
def toMat (t : ℕ) (a : ℕ → ℕ → ℚ) : Matrix (Fin t) (Fin t) ℚ :=
  Matrix.of (fun i j => a i.val j.val)

/-- np.matmul agrees with ordinary matrix multiplication. -/
theorem toMat_np_matmul (t : ℕ) (a b : ℕ → ℕ → ℚ) :
    toMat t (np_matmul t a b) = toMat t a * toMat t b := by
  ext i j
  rw [Matrix.mul_apply]
  show np_matmul t a b i.val j.val = _
  unfold np_matmul
  rw [← Fin.sum_univ_eq_sum_range (fun k => a i.val k * b k j.val) t]
  rfl

/-- After n iterations of the loop on lines 288-290, the accumulator is the
product M (L-1) * M (L-2) * ... * M (L-1-n). -/
theorem rollout_aux_prod (t : ℕ) (M : ℕ → ℕ → ℕ → ℚ) (L : ℕ) :
    ∀ n : ℕ, toMat t (rollout_aux t M L n)
      = ((List.range (n + 1)).map (fun k => toMat t (M (L - 1 - k)))).prod
  | 0 => by
    rw [show List.range 1 = [0] from rfl]
    simp [rollout_aux]
  | n + 1 => by
    rw [List.range_succ, List.map_append, List.prod_append]
    show toMat t (np_matmul t (rollout_aux t M L n) (M (L - 1 - (n + 1)))) = _
    rw [toMat_np_matmul, rollout_aux_prod t M L n]
    simp

/-- The reverse of List.range n enumerates n - 1 - k for k in List.range n. -/
theorem range_reverse_eq (n : ℕ) :
    (List.range n).reverse = (List.range n).map (fun k => n - 1 - k) := by
  have h := List.reverse_range' 0 n
  rw [← List.range_eq_range'] at h
  rw [h]
  simp

/-- Claim C3 (confirmed): the rollout accumulation of lines 288-290, which
starts from the last layer's relevance matrix and folds over the preceding
layers in reverse order, equals the ordinary matrix product
M (L-1) * M (L-2) * ... * M 0; in particular for two layers it is the direct
product of the two layer matrices. -/
theorem c3_rollout_is_product (t : ℕ) (M : ℕ → ℕ → ℕ → ℚ) (L : ℕ) (hL : 1 ≤ L) :
    toMat t (rollout t M L)
      = (((List.range L).reverse).map (fun l => toMat t (M l))).prod
    ∧ toMat t (rollout t M 2) = toMat t (M 1) * toMat t (M 0) := by
  constructor
  · unfold rollout
    rw [rollout_aux_prod t M L (L - 1)]
    have hL1 : L - 1 + 1 = L := by omega
    rw [hL1, range_reverse_eq, List.map_map]
    rfl
  · unfold rollout
    show toMat t (np_matmul t (rollout_aux t M 2 0) (M (2 - 1 - 1))) = _
    rw [toMat_np_matmul]
    norm_num [rollout_aux]

/-- Witness for C3 at a concrete input. -/
theorem c3_rollout_is_product_witness :
    1 ≤ 2 ∧
    (toMat 1 (rollout 1 (fun _ _ _ => (1 : ℚ)) 2)
      = (((List.range 2).reverse).map (fun l => toMat 1 ((fun _ _ _ => (1 : ℚ)) l))).prod
    ∧ toMat 1 (rollout 1 (fun _ _ _ => (1 : ℚ)) 2)
      = toMat 1 ((fun _ _ _ => (1 : ℚ)) 1) * toMat 1 ((fun _ _ _ => (1 : ℚ)) 0)) :=
  ⟨by norm_num, c3_rollout_is_product 1 (fun _ _ _ => (1 : ℚ)) 2 (by norm_num)⟩

/-- Modelled from the spec: the spec's mask extraction excludes all
num_class_tokens class-token columns from the first row of the composite
matrix ("Extract the first row ... excluding the class-token columns", with
num_class_tokens ≥ 1 non-spatial tokens prepended), whereas the code's
slice v[0, 1:] on line 293 always removes exactly one column. -/
def row_after_class_spec (c t : ℕ) (v : ℕ → ℕ → ℚ) : List ℚ :=
  (List.range (t - c)).map (fun j => v 0 (c + j))

/-- Modelled from the spec: first row minus all c class-token columns,
reshaped into a grid_size × grid_size mask. -/
def extract_mask_spec (c g t : ℕ) (v : ℕ → ℕ → ℚ) : Except NpError (List (List ℚ)) :=
  np_reshape2 g (row_after_class_spec c t v)

/-- A concrete 6 × 6 composite matrix with pairwise distinct entries. -/
def v6 : ℕ → ℕ → ℚ := fun i j => ((i * 6 + j : ℕ) : ℚ)

/-- Claim C5 counterexample: with num_class_tokens = 2 and a 6-token
composite matrix (grid_size = 2 since 6 - 2 = 4), the code's extraction
fails in the reshape (v[0, 1:] has 5 entries, not 4), while the claimed
mask - the first row with both class-token columns excluded, reshaped
2 × 2 - exists; so the spatial mask does not equal the claimed one for
every num_class_tokens ≥ 1. -/
theorem c5_counterexample :
    extract_mask (grid_size 6 2) 6 v6 = Except.error NpError.shapeError
    ∧ extract_mask_spec 2 (grid_size 6 2) 6 v6 = Except.ok [[2, 3], [4, 5]]
    ∧ extract_mask (grid_size 6 2) 6 v6 ≠ extract_mask_spec 2 (grid_size 6 2) 6 v6 := by
  refine ⟨?_, ?_, ?_⟩
  · norm_num [extract_mask, np_reshape2, row_after_class, grid_size, v6]
  · norm_num [extract_mask_spec, np_reshape2, row_after_class_spec, grid_size, v6,
      List.range_succ]
  · norm_num [extract_mask, extract_mask_spec, np_reshape2, row_after_class,
      row_after_class_spec, grid_size, v6]
    exact fun h => Except.noConfusion h

/-- getD on a mapped range evaluates the function at an in-range index. -/
theorem getD_range_map (n k : ℕ) (f : ℕ → ℚ) (hk : k < n) :
    ((List.range n).map f).getD k 0 = f k := by
  rw [List.getD_eq_getElem?_getD, List.getElem?_map, List.getElem?_range hk]
  rfl

/-- Claim C5 (amended): the spatial mask equals the first row of the
composite matrix with exactly one leading class-token column excluded
(slice v[0, 1:]), reshaped grid_size × grid_size; this agrees with the
spec's description exactly when num_class_tokens = 1, the only case the
code supports. -/
theorem c5_amended_mask (g : ℕ) (v : ℕ → ℕ → ℚ) :
    extract_mask g (g * g + 1) v
      = Except.ok ((List.range g).map (fun i =>
          (List.range g).map (fun j => v 0 (1 + (i * g + j)))))
    ∧ extract_mask g (g * g + 1) v = extract_mask_spec 1 g (g * g + 1) v := by
  have hlen : (row_after_class (g * g + 1) v).length = g * g := by
    simp [row_after_class]
  constructor
  · unfold extract_mask np_reshape2
    rw [if_pos hlen]
    congr 1
    apply List.map_congr_left
    intro i hi
    apply List.map_congr_left
    intro j hj
    rw [List.mem_range] at hi hj
    have hij : i * g + j < g * g + 1 - 1 := by
      have := mul_add_lt hi hj
      omega
    unfold row_after_class
    rw [getD_range_map _ _ _ hij]
  · rfl

/-- Division by a positive constant distributes over max. -/
theorem max_div_pos {a b c : ℚ} (hc : 0 < c) : max a b / c = max (a / c) (b / c) := by
  rcases le_total a b with h | h
  · rw [max_eq_right h, max_eq_right ((div_le_div_iff_of_pos_right hc).mpr h)]
  · rw [max_eq_left h, max_eq_left ((div_le_div_iff_of_pos_right hc).mpr h)]

/-- np.max of an array divided entrywise by a positive constant is the
original maximum divided by that constant. -/
theorem np_max_map_div (c : ℚ) (hc : 0 < c) :
    ∀ l : List ℚ, l ≠ [] → np_max (l.map (fun x => x / c)) = np_max l / c
  | [], h => absurd rfl h
  | [x], _ => by simp [np_max]
  | x :: y :: xs, _ => by
    have ih := np_max_map_div c hc (y :: xs) (by simp)
    have hmap : (y :: xs).map (fun x => x / c) = y / c :: xs.map (fun x => x / c) := rfl
    show max (x / c) (np_max ((y :: xs).map (fun x => x / c))) = _
    rw [ih]
    show _ = max x (np_max (y :: xs)) / c
    rw [max_div_pos hc]

/-- getD through a row map that sends the empty row to the empty row. -/
theorem getD_map_nil (g : List ℚ → List ℚ) (hg : g [] = []) :
    ∀ (l : List (List ℚ)) (i : ℕ), (l.map g).getD i [] = g (l.getD i [])
  | [], i => by simp [hg]
  | r :: rs, 0 => rfl
  | r :: rs, i + 1 => by
    show (rs.map g).getD i [] = g (rs.getD i [])
    exact getD_map_nil g hg rs i

/-- getD through an entry map that fixes the default 0. -/
theorem getD_map_zero (f : ℚ → ℚ) (hf : f 0 = 0) :
    ∀ (l : List ℚ) (j : ℕ), (l.map f).getD j 0 = f (l.getD j 0)
  | [], j => by simp [hf]
  | x :: xs, 0 => rfl
  | x :: xs, j + 1 => by
    show (xs.map f).getD j 0 = f (xs.getD j 0)
    exact getD_map_zero f hf xs j

/-- Claim C6 (amended): the per-call normalization mask / mask.max() of
line 294, for a mask whose maximum m is attained once and positive, yields a
mask whose maximum is exactly 1 and whose every entry is the corresponding
input entry scaled by 1 / m.  (With a merely nonzero, negative maximum the
output maximum is not 1; see the counterexample.) -/
theorem c6_amended_div_max (m : List (List ℚ))
    (hpos : 0 < np_max m.flatten)
    (hdist : m.flatten.countP (fun x => x = np_max m.flatten) = 1) :
    np_max ((np_div_max m).flatten) = 1
    ∧ ∀ i j : ℕ, ((np_div_max m).getD i []).getD j 0
        = ((m.getD i []).getD j 0) * (1 / np_max m.flatten) := by
  have hne : m.flatten ≠ [] := by
    intro h
    rw [h] at hpos
    simp [np_max] at hpos
  constructor
  · have hflat : (np_div_max m).flatten
        = (m.flatten).map (fun x => x / np_max m.flatten) := by
      unfold np_div_max
      rw [← List.map_flatten]
    rw [hflat, np_max_map_div _ hpos _ hne, div_self (ne_of_gt hpos)]
  · intro i j
    unfold np_div_max
    rw [getD_map_nil (fun row => row.map (fun x => x / np_max m.flatten)) rfl,
      getD_map_zero (fun x => x / np_max m.flatten) (zero_div _),
      div_eq_mul_one_div]

/-- Claim C6 counterexample: the mask [[-2, -1]] has the distinct nonzero
maximum -1, but mask / mask.max() is [[2, 1]], whose maximum is 2, not 1;
so a nonzero maximum is not enough for the claim, positivity is needed. -/
theorem c6_counterexample :
    np_max ([[-2, -1]] : List (List ℚ)).flatten = -1
    ∧ np_max ([[-2, -1]] : List (List ℚ)).flatten ≠ 0
    ∧ ([[-2, -1]] : List (List ℚ)).flatten.countP
        (fun x => x = np_max ([[-2, -1]] : List (List ℚ)).flatten) = 1
    ∧ np_max ((np_div_max ([[-2, -1]] : List (List ℚ))).flatten) ≠ 1 := by
  refine ⟨?_, ?_, ?_, ?_⟩
  · norm_num [np_max]
  · norm_num [np_max]
  · norm_num [np_max, List.countP_cons]
  · norm_num [np_max, np_div_max]

/-- Witness for the amended C6 at a concrete input. -/
theorem c6_amended_div_max_witness :
    0 < np_max ([[1, 2]] : List (List ℚ)).flatten
    ∧ ([[1, 2]] : List (List ℚ)).flatten.countP
        (fun x => x = np_max ([[1, 2]] : List (List ℚ)).flatten) = 1
    ∧ (np_max ((np_div_max ([[1, 2]] : List (List ℚ))).flatten) = 1
    ∧ ∀ i j : ℕ, ((np_div_max ([[1, 2]] : List (List ℚ))).getD i []).getD j 0
        = ((([[1, 2]] : List (List ℚ)).getD i []).getD j 0)
          * (1 / np_max ([[1, 2]] : List (List ℚ)).flatten)) :=
  ⟨by norm_num [np_max], by norm_num [np_max, List.countP_cons],
    c6_amended_div_max [[1, 2]] (by norm_num [np_max])
      (by norm_num [np_max, List.countP_cons])⟩

/-- Claim C2 (confirmed): when tokens - num_tokens is a perfect square the
grid-size computation of line 264 returns its exact integer square root;
when it is not, the computation fails at once with the shape error of the
line 277 reshape (numpy ValueError, the design document's ShapeError), with
no retry: build_attention_map returns that error for every image. -/
theorem c2_grid_size (inp : AttnInput) (img : ImageIn)
    (hc : 1 ≤ inp.num_tokens) (hct : inp.num_tokens ≤ inp.tokens)
    (hL : 1 ≤ inp.num_layers) (hH : 1 ≤ inp.num_heads) :
    ((∃ s, inp.tokens - inp.num_tokens = s * s) →
      grid_size inp.tokens inp.num_tokens * grid_size inp.tokens inp.num_tokens
        = inp.tokens - inp.num_tokens)
    ∧ ((¬ ∃ s, inp.tokens - inp.num_tokens = s * s) →
      build_attention_map inp img = Except.error NpError.shapeError) := by
  constructor
  · rintro ⟨s, hs⟩
    unfold grid_size
    rw [hs, Nat.sqrt_eq]
  · intro hns
    have hlt : grid_size inp.tokens inp.num_tokens * grid_size inp.tokens inp.num_tokens
        < inp.tokens - inp.num_tokens := by
      rcases Nat.lt_or_ge (Nat.sqrt (inp.tokens - inp.num_tokens)
          * Nat.sqrt (inp.tokens - inp.num_tokens)) (inp.tokens - inp.num_tokens) with h | h
      · exact h
      · exfalso
        exact hns ⟨Nat.sqrt (inp.tokens - inp.num_tokens),
          le_antisymm h (Nat.sqrt_le (inp.tokens - inp.num_tokens))⟩
    have hgt : grid_size inp.tokens inp.num_tokens * grid_size inp.tokens inp.num_tokens + 1
        < inp.tokens := by omega
    have hchk : reshape_check inp.num_layers inp.num_heads inp.tokens (grid_of inp)
        = Except.error NpError.shapeError := by
      unfold reshape_check
      rw [if_neg]
      intro heq
      have hne : inp.tokens * inp.tokens
          ≠ (grid_of inp * grid_of inp + 1) * (grid_of inp * grid_of inp + 1) := by
        have h1 : grid_of inp * grid_of inp + 1 < inp.tokens := hgt
        have h2 : (grid_of inp * grid_of inp + 1) * (grid_of inp * grid_of inp + 1)
            < inp.tokens * inp.tokens := by
          exact Nat.mul_lt_mul_of_lt_of_le h1 (Nat.le_of_lt h1) (by omega)
        omega
      apply hne
      have hLH : 0 < inp.num_layers * inp.num_heads := by positivity
      have heq2 : inp.num_layers * inp.num_heads * (inp.tokens * inp.tokens)
          = inp.num_layers * inp.num_heads
            * ((grid_of inp * grid_of inp + 1) * (grid_of inp * grid_of inp + 1)) := by
        calc inp.num_layers * inp.num_heads * (inp.tokens * inp.tokens)
            = inp.num_layers * 1 * inp.num_heads * (inp.tokens * inp.tokens) := by ring
        _ = inp.num_layers * inp.num_heads
            * ((grid_of inp * grid_of inp + 1) * (grid_of inp * grid_of inp + 1)) := by
            rw [heq]
      exact Nat.eq_of_mul_eq_mul_left hLH heq2
    unfold build_attention_map
    rw [hchk]
    rfl

/-- Witness for C2 at a concrete input: 4 tokens, 1 class token, so
tokens - num_tokens = 3 is not a perfect square. -/
theorem c2_grid_size_witness :
    (1 ≤ nonsq_attn.num_tokens ∧ nonsq_attn.num_tokens ≤ nonsq_attn.tokens
      ∧ 1 ≤ nonsq_attn.num_layers ∧ 1 ≤ nonsq_attn.num_heads)
    ∧ (((∃ s, nonsq_attn.tokens - nonsq_attn.num_tokens = s * s) →
        grid_size nonsq_attn.tokens nonsq_attn.num_tokens
          * grid_size nonsq_attn.tokens nonsq_attn.num_tokens
          = nonsq_attn.tokens - nonsq_attn.num_tokens)
      ∧ ((¬ ∃ s, nonsq_attn.tokens - nonsq_attn.num_tokens = s * s) →
        build_attention_map nonsq_attn img1 = Except.error NpError.shapeError)) :=
  ⟨⟨by decide, by decide, by decide, by decide⟩,
    c2_grid_size nonsq_attn img1 (by decide) (by decide) (by decide) (by decide)⟩

/-- Full evaluation of the pipeline on the all-zero attention input and the
1 × 1 image: the run completes normally. -/
theorem pipeline_eval_zero : build_attention_map zero_attn img1 = Except.ok [[[0]]] := by
  norm_num [build_attention_map, reshape_check, grid_of, grid_size, tok_count, extract_mask,
    np_reshape2, row_after_class, rollout_of, rollout, rollout_aux, layer_mat, norm_total,
    total_sum, add_eye, avg_of, head_mean, reshaped_of, reshape4, flatten5, np_matmul,
    np_div_max, np_max, cv2_resize, bilinear_sample, grid_get, clamp_idx, overlay,
    uint8_cast, trunc_int, image_width, image_height, zero_attn, img1,
    Nat.sqrt_one, Finset.sum_range_succ, List.range_succ, Except.bind]

/-- Claim C4 (confirmed): at the all-zero attention input the extracted
spatial mask is [[0]], whose maximum is zero, and the normalization
mask / mask.max() of line 294 (np_div_max, which by definition divides every
entry by np_max with no guard) is performed with divisor zero; the whole
computation still returns a result, raising no error. -/
theorem c4_division_by_zero_unguarded :
    extract_mask (grid_of zero_attn) (tok_count zero_attn) (rollout_of zero_attn)
      = Except.ok [[0]]
    ∧ np_max ([[(0 : ℚ)]] : List (List ℚ)).flatten = 0
    ∧ build_attention_map zero_attn img1 = Except.ok [[[0]]] := by
  refine ⟨?_, ?_, pipeline_eval_zero⟩
  · norm_num [extract_mask, np_reshape2, row_after_class, rollout_of, rollout, rollout_aux,
      layer_mat, norm_total, total_sum, add_eye, avg_of, head_mean, reshaped_of, reshape4,
      flatten5, tok_count, grid_of, grid_size, zero_attn, Nat.sqrt_one,
      Finset.sum_range_succ, List.range_succ]
  · norm_num [np_max]

/-- Shape of cv2_resize output: h rows of w columns (the cv2 dsize pair is
(width, height)). -/
theorem cv2_resize_shape (m : List (List ℚ)) (w h : ℕ) :
    (cv2_resize m w h).length = h ∧ ∀ r ∈ cv2_resize m w h, r.length = w := by
  constructor
  · simp [cv2_resize]
  · intro r hr
    unfold cv2_resize at hr
    rw [List.mem_map] at hr
    obtain ⟨i, hi, hr⟩ := hr
    rw [← hr]
    simp

/-- Every element of a zipWith comes from a pair of elements of the zipped
lists. -/
theorem mem_zipWith {α β γ : Type} (f : α → β → γ) :
    ∀ (as : List α) (bs : List β) (c : γ), c ∈ List.zipWith f as bs →
      ∃ a b, a ∈ as ∧ b ∈ bs ∧ c = f a b
  | [], _, c => by simp
  | _ :: _, [], c => by simp
  | a :: as, b :: bs, c => by
    intro hc
    rw [List.zipWith_cons_cons] at hc
    rcases List.mem_cons.mp hc with h | h
    · exact ⟨a, b, List.mem_cons_self _ _, List.mem_cons_self _ _, h⟩
    · obtain ⟨a2, b2, ha, hb, he⟩ := mem_zipWith f as bs c h
      exact ⟨a2, b2, List.mem_cons_of_mem _ ha, List.mem_cons_of_mem _ hb, he⟩

/-- Claim C8 (confirmed): whenever build_attention_map returns a result for
a rectangular image, the result's spatial dimensions are exactly the input
image's height and width: line 294 resizes the mask with
dsize = (image.shape[1], image.shape[0]) and line 295 multiplies it
elementwise against the image. -/
theorem c8_output_dims (inp : AttnInput) (img : ImageIn) (out : List (List (List ℕ)))
    (hwf : ∀ r ∈ img.pix, r.length = image_width img)
    (hok : build_attention_map inp img = Except.ok out) :
    out.length = image_height img ∧ ∀ r ∈ out, r.length = image_width img := by
  unfold build_attention_map at hok
  cases hr : reshape_check inp.num_layers inp.num_heads inp.tokens (grid_of inp) with
  | error e =>
    rw [hr] at hok
    exact absurd hok (by simp [Except.bind])
  | ok u =>
    rw [hr] at hok
    cases he : extract_mask (grid_of inp) (tok_count inp) (rollout_of inp) with
    | error e =>
      rw [he] at hok
      exact absurd hok (by simp [Except.bind])
    | ok mask =>
      rw [he] at hok
      simp only [Except.bind, Except.ok.injEq] at hok
      constructor
      · rw [← hok]
        unfold overlay
        rw [List.length_zipWith, (cv2_resize_shape _ _ _).1]
        simp [image_height]
      · intro r hrm
        rw [← hok] at hrm
        unfold overlay at hrm
        obtain ⟨mrow, prow, hm, hp, he2⟩ := mem_zipWith _ _ _ _ hrm
        rw [he2, List.length_zipWith]
        have h1 : mrow.length = image_width img := (cv2_resize_shape _ _ _).2 mrow hm
        have h2 : prow.length = image_width img := hwf prow hp
        rw [h1, h2, Nat.min_self]

/-- Witness for C8 at a concrete input. -/
theorem c8_output_dims_witness :
    (∀ r ∈ img1.pix, r.length = image_width img1)
    ∧ build_attention_map zero_attn img1 = Except.ok [[[0]]]
    ∧ (([[[0]]] : List (List (List ℕ))).length = image_height img1
      ∧ ∀ r ∈ ([[[0]]] : List (List (List ℕ))), r.length = image_width img1) := by
  have hwf : ∀ r ∈ img1.pix, r.length = image_width img1 := by
    norm_num [img1, image_width]
  exact ⟨hwf, pipeline_eval_zero,
    c8_output_dims zero_attn img1 [[[0]]] hwf pipeline_eval_zero⟩

/-- Runtime numpy objects of build_attention_map: the two inputs and the
intermediate arrays of each rank allocated on lines 271-295. -/
inductive PyObj where
  | tensor5 : AttnInput → PyObj
  | imageObj : List (List (List ℚ)) → PyObj
  | tensor4 : (ℕ → ℕ → ℕ → ℕ → ℚ) → PyObj
  | tensor3 : (ℕ → ℕ → ℕ → ℚ) → PyObj
  | matObj : (ℕ → ℕ → ℚ) → PyObj
  | gridObj : List (List ℚ) → PyObj
  | outObj : List (List (List ℕ)) → PyObj

/-- One run of build_attention_map over an explicit object store whose first
two cells hold the inputs (the captured weights tensor and the image).
Every numpy operation the function uses (reshape, mean, + np.eye, / sum,
np.matmul, slicing, / max, cv2.resize, * image with astype) is out-of-place,
so each assignment appends a fresh array and no existing cell is ever
written: line 277 (reshaped), line 280 (head mean), line 284 (+ identity),
line 285 (renormalize), lines 288-290 (one accumulator value per loop
state), line 293 (mask), line 294 (mask / max, then the resized mask), and
line 295 (the returned overlay).  The function result (or the numpy error)
is returned alongside the final store. -/
def run_build (inp : AttnInput) (pix : List (List (List ℚ))) (rest : List PyObj) :
    List PyObj × Except NpError PyObj :=
  match reshape_check inp.num_layers inp.num_heads inp.tokens (grid_of inp) with
  | Except.error e => (PyObj.tensor5 inp :: PyObj.imageObj pix :: rest, Except.error e)
  | Except.ok _ =>
    match extract_mask (grid_of inp) (tok_count inp) (rollout_of inp) with
    | Except.error e =>
      ((((PyObj.tensor5 inp :: PyObj.imageObj pix :: rest
        ++ [PyObj.tensor4 (reshaped_of inp)])
        ++ [PyObj.tensor3 (avg_of inp)])
        ++ [PyObj.tensor3 (fun l => add_eye (avg_of inp l))]
        ++ [PyObj.tensor3 (layer_mat inp)])
        ++ (List.range inp.num_layers).map (fun n =>
          PyObj.matObj (rollout_aux (tok_count inp) (layer_mat inp) inp.num_layers n)),
        Except.error e)
    | Except.ok mask =>
      (((((((PyObj.tensor5 inp :: PyObj.imageObj pix :: rest
        ++ [PyObj.tensor4 (reshaped_of inp)])
        ++ [PyObj.tensor3 (avg_of inp)])
        ++ [PyObj.tensor3 (fun l => add_eye (avg_of inp l))]
        ++ [PyObj.tensor3 (layer_mat inp)])
        ++ (List.range inp.num_layers).map (fun n =>
          PyObj.matObj (rollout_aux (tok_count inp) (layer_mat inp) inp.num_layers n)))
        ++ [PyObj.gridObj mask])
        ++ [PyObj.gridObj (np_div_max mask)]
        ++ [PyObj.gridObj (cv2_resize (np_div_max mask)
              (image_width ⟨pix⟩) (image_height ⟨pix⟩))])
        ++ [PyObj.outObj (overlay (cv2_resize (np_div_max mask)
              (image_width ⟨pix⟩) (image_height ⟨pix⟩)) pix)],
        Except.ok (PyObj.outObj (overlay (cv2_resize (np_div_max mask)
              (image_width ⟨pix⟩) (image_height ⟨pix⟩)) pix)))

/-- Claim C9 (confirmed): build_attention_map returns a newly computed array
and leaves its inputs unchanged, with no side effect beyond returning the
result: a run over any store holding the captured weights tensor and the
image only appends fresh allocations, so the input cells still hold exactly
the original objects afterwards, and the returned value is the pure
function build_attention_map of the inputs. -/
theorem c9_no_mutation (inp : AttnInput) (pix : List (List (List ℚ))) (rest : List PyObj) :
    ((run_build inp pix rest).1.take 2 = [PyObj.tensor5 inp, PyObj.imageObj pix])
    ∧ (run_build inp pix rest).2 = (build_attention_map inp ⟨pix⟩).map PyObj.outObj := by
  cases hr : reshape_check inp.num_layers inp.num_heads inp.tokens (grid_of inp) with
  | error e =>
    unfold run_build build_attention_map
    rw [hr]
    exact ⟨rfl, rfl⟩
  | ok u =>
    cases he : extract_mask (grid_of inp) (tok_count inp) (rollout_of inp) with
    | error e2 =>
      unfold run_build build_attention_map
      rw [hr, he]
      exact ⟨rfl, rfl⟩
    | ok mask =>
      unfold run_build build_attention_map
      rw [hr, he]
      exact ⟨rfl, rfl⟩

end AttentionRollout
